import Mathlib

/-!
Verification of the Cryologger Glacier Velocity Tracker firmware core:
the RTC alarm scheduler (`01_rtc.ino`), the GNSS logging pipeline
(`logGnss`) and the RTC/GNSS time synchronization routine (`syncRtc`).

The definitions below are shallow embeddings of the C++ source.  Machine
integers are modelled as `Nat`/`Int`; C `int` arithmetic that can go
negative (for example `alarmSummerStartDay - 1`) is carried out in `Int`,
and the 32-bit unsigned wrap of `unsigned long` subtraction is made
explicit where it matters (`usub32`, `toSigned32`).
-/

namespace Gvt

/-- Operation mode constant: daily logging (`operationMode == 1`). -/
def DAILY : Nat := 1

/-- Operation mode constant: rolling logging (`operationMode == 2`). -/
def ROLLING : Nat := 2

/-- Operation mode constant: continuous logging (`operationMode == 3`). -/
def CONTINUOUS : Nat := 3

/-- A snapshot of the RTC's calendar registers, as read by `rtc.getTime()`.
`year` is the two-digit year stored by the Apollo3 RTC (years since 2000). -/
structure DateTime where
  hour : Nat
  minute : Nat
  seconds : Nat
  dayOfMonth : Nat
  month : Nat
  year : Nat
deriving Repr, DecidableEq

/-- The user-configured logging and seasonal parameters, i.e. the global
configuration `byte`s and the `summerMode` flag of the firmware. -/
structure RtcConfig where
  normalOperationMode : Nat
  summerMode : Bool
  alarmStartHour : Nat
  alarmStartMinute : Nat
  alarmStopHour : Nat
  alarmStopMinute : Nat
  alarmAwakeHours : Nat
  alarmAwakeMinutes : Nat
  alarmSleepHours : Nat
  alarmSleepMinutes : Nat
  alarmSummerStartDay : Nat
  alarmSummerStartMonth : Nat
  alarmSummerEndDay : Nat
  alarmSummerEndMonth : Nat
deriving Repr, DecidableEq

/-- The six arguments of a `rtc.setAlarm(hour, minute, seconds, hundredths,
dayOfMonth, month)` call. -/
structure AlarmSpec where
  hour : Nat
  minute : Nat
  seconds : Nat
  hundredths : Nat
  dayOfMonth : Nat
  month : Nat
deriving Repr, DecidableEq

/-- The externally visible effect of one `setAwakeAlarm` / `setSleepAlarm`
call: the `rtc.setAlarm` arguments if the call programmed an alarm, the
`rtc.setAlarmMode` argument if the mode register was written, and whether
`alarmFlag` was cleared. -/
structure AlarmEffect where
  programmed : Option AlarmSpec
  alarmModeSet : Option Nat
  alarmFlagCleared : Bool
deriving Repr, DecidableEq

/-- `(rtc.month * 100) + rtc.dayOfMonth`, the month/day key used by
`isSummer` (computed in C `int`, hence `Int`). -/
def currentMD (now : DateTime) : Int :=
  (now.month : Int) * 100 + (now.dayOfMonth : Int)

/-- `(alarmSummerStartMonth * 100) + alarmSummerStartDay`. -/
def summerStartMD (cfg : RtcConfig) : Int :=
  (cfg.alarmSummerStartMonth : Int) * 100 + (cfg.alarmSummerStartDay : Int)

/-- `(alarmSummerEndMonth * 100) + alarmSummerEndDay`. -/
def summerEndMD (cfg : RtcConfig) : Int :=
  (cfg.alarmSummerEndMonth : Int) * 100 + (cfg.alarmSummerEndDay : Int)

/-- `isSummer()` from `01_rtc.ino`: the current month/day lies in the
inclusive window `[startMD, endMD]`. -/
def isSummer (cfg : RtcConfig) (now : DateTime) : Bool :=
  decide (summerStartMD cfg ≤ currentMD now) &&
  decide (currentMD now ≤ summerEndMD cfg)

/-- `checkOperationMode()` from `01_rtc.ino`: recompute the transient
`operationMode` from `summerMode`, `isSummer()` and `normalOperationMode`. -/
def checkOperationMode (cfg : RtcConfig) (now : DateTime) : Nat :=
  if cfg.summerMode && isSummer cfg now then CONTINUOUS
  else cfg.normalOperationMode

/-- `getLastDayOfMonth(month, year)` from `01_rtc.ino` (handles leap
years; the RTC's year is two-digit, which is what the code passes). -/
def getLastDayOfMonth (month year : Nat) : Nat :=
  if month = 2 then
    if year % 4 = 0 ∧ (year % 100 ≠ 0 ∨ year % 400 = 0) then 29 else 28
  else if month = 4 ∨ month = 6 ∨ month = 9 ∨ month = 11 then 30 else 31

/-- `isLastDayBeforeSummer()` from `01_rtc.ino`.  The subtractions
`alarmSummerStartMonth - 1` and `alarmSummerStartDay - 1` are C `int`
subtractions, so they are taken in `Int`. -/
def isLastDayBeforeSummer (cfg : RtcConfig) (now : DateTime) : Bool :=
  if cfg.alarmSummerStartDay = 1 then
    decide (now.dayOfMonth = getLastDayOfMonth now.month now.year) &&
    decide ((now.month : Int) = (cfg.alarmSummerStartMonth : Int) - 1)
  else
    decide ((now.dayOfMonth : Int) = (cfg.alarmSummerStartDay : Int) - 1) &&
    decide (now.month = cfg.alarmSummerStartMonth)

/-- `setAwakeAlarm()` from `01_rtc.ino`.  `prevLoggingMode` is the value
held by the global `alarmModeLogging` at entry (used unchanged by the
`CONTINUOUS` fall-through).  In the `DAILY` last-day-before-summer branch
the function returns early: no alarm and no alarm mode are written and
`alarmFlag` is left set. -/
def setAwakeAlarm (cfg : RtcConfig) (now : DateTime) (prevLoggingMode : Nat) :
    AlarmEffect :=
  let mode := checkOperationMode cfg now
  if mode = DAILY then
    if cfg.summerMode && isLastDayBeforeSummer cfg now &&
        decide (cfg.alarmStopHour ≤ now.hour) &&
        decide (cfg.alarmStopMinute ≤ now.minute) then
      { programmed := none, alarmModeSet := none, alarmFlagCleared := false }
    else
      { programmed := some
          ⟨cfg.alarmStopHour, cfg.alarmStopMinute, 0, 0, now.dayOfMonth, now.month⟩,
        alarmModeSet := some 4,
        alarmFlagCleared := true }
  else if mode = ROLLING then
    { programmed := some
        ⟨(now.hour + cfg.alarmAwakeHours) % 24,
         (now.minute + cfg.alarmAwakeMinutes) % 60, 0, 0,
         now.dayOfMonth, now.month⟩,
      alarmModeSet := some (if 0 < cfg.alarmAwakeHours then 4 else 5),
      alarmFlagCleared := true }
  else
    { programmed := none, alarmModeSet := some prevLoggingMode,
      alarmFlagCleared := true }

/-- `setSleepAlarm()` from `01_rtc.ino`.  `prevSleepMode` is the value of
the global `alarmModeSleep` at entry (used unchanged when the `switch`
falls through, e.g. in `CONTINUOUS` mode). -/
def setSleepAlarm (cfg : RtcConfig) (now : DateTime) (prevSleepMode : Nat) :
    AlarmEffect :=
  let mode := checkOperationMode cfg now
  if mode = DAILY then
    if cfg.summerMode && isLastDayBeforeSummer cfg now &&
        decide (cfg.alarmStopHour ≤ now.hour) &&
        decide (cfg.alarmStopMinute ≤ now.minute) then
      { programmed := some
          ⟨0, 0, 0, 0, cfg.alarmSummerStartDay, cfg.alarmSummerStartMonth⟩,
        alarmModeSet := some 4,
        alarmFlagCleared := true }
    else
      { programmed := some
          ⟨cfg.alarmStartHour, cfg.alarmStartMinute, 0, 0,
           now.dayOfMonth, now.month⟩,
        alarmModeSet := some 4,
        alarmFlagCleared := true }
  else if mode = ROLLING then
    { programmed := some
        ⟨(now.hour + cfg.alarmSleepHours) % 24,
         (now.minute + cfg.alarmSleepMinutes) % 60, 0, 0,
         now.dayOfMonth, now.month⟩,
      alarmModeSet := some (if 0 < cfg.alarmSleepHours then 4 else 5),
      alarmFlagCleared := true }
  else
    { programmed := none, alarmModeSet := some prevSleepMode,
      alarmFlagCleared := true }

/-! ## The GNSS logging pipeline (`logGnss` of the main sketch)

The receiver's internal file buffer is modelled as a FIFO `List Nat`
(abstract bytes).  The environment supplies, per loop iteration, the bytes
that `gnss.checkUblox()` makes available and the boolean results of the
storage operations.  The `while (!alarmFlag)` outer loop is driven by a
list with one entry per iteration executed before the alarm interrupt is
observed. -/

/-- `sdWriteSize` from the main sketch: data is written to the microSD in
blocks of 512 bytes. -/
def sdWriteSize : Nat := 512

/-- `fileBufferSize` from the main sketch: 16 KB receiver buffer. -/
def fileBufferSize : Nat := 16384

/-- The four session failure/throughput counters (globals `bytesWritten`,
`writeFailCounter`, `syncFailCounter`, `closeFailCounter`). -/
structure Counters where
  bytesWritten : Nat
  writeFailCounter : Nat
  syncFailCounter : Nat
  closeFailCounter : Nat
deriving Repr, DecidableEq

/-- One recorded storage write: the payload handed to `logFile.write` and
the boolean result the storage returned. -/
abbrev WriteEvent : Type := List Nat × Bool

/-- Environment input for one iteration of the inner
`while (gnss.fileBufferAvailable() >= sdWriteSize)` loop: the result of
`logFile.write` and the bytes made available by the `gnss.checkUblox()`
call that follows the write. -/
abbrev InnerInput : Type := Bool × List Nat

/-- Environment input for one iteration of the outer `while (!alarmFlag)`
loop: the bytes made available by the leading `gnss.checkUblox()`, the
inner-loop inputs, whether the 5000 ms flush interval had elapsed
(`millis() - previousMillis > 5000`), and the result of `logFile.sync()`
if it had. -/
structure OuterIter where
  arrival : List Nat
  innerEnv : List InnerInput
  syncDue : Bool
  syncOk : Bool

/-- Complete environment script for one `logGnss` session: the outer-loop
iterations executed before `alarmFlag` is observed set, the results of the
(unchecked) writes of the final drain loop, and the results of the final
`logFile.sync()` and `logFile.close()`. -/
structure Env where
  iters : List OuterIter
  drainResults : List Bool
  finalSyncOk : Bool
  closeOk : Bool

/-- Effect of one full-block write on the counters: `writeFailCounter` is
incremented when `logFile.write` fails, and `bytesWritten` is incremented
by `sdWriteSize` unconditionally (source lines 886-893). -/
def blockWriteStep (c : Counters) (ok : Bool) : Counters :=
  { c with
    writeFailCounter := if ok then c.writeFailCounter else c.writeFailCounter + 1,
    bytesWritten := c.bytesWritten + sdWriteSize }

/-- The inner full-block loop once the environment script is exhausted:
no further bytes arrive and the remaining writes succeed.  Keeps
extracting `sdWriteSize`-byte blocks from the head of the buffer while at
least one full block is available. -/
def drainFullBlocks (buf : List Nat) (c : Counters) (log : List WriteEvent) :
    List Nat × Counters × List WriteEvent :=
  if sdWriteSize ≤ buf.length then
    drainFullBlocks (buf.drop sdWriteSize) (blockWriteStep c true)
      (log ++ [(buf.take sdWriteSize, true)])
  else
    (buf, c, log)
termination_by buf.length
decreasing_by
  simp only [List.length_drop]
  simp only [sdWriteSize] at *
  omega

/-- The inner `while (gnss.fileBufferAvailable() >= sdWriteSize)` loop of
`logGnss`: extract exactly `sdWriteSize` bytes from the head of the
buffer, write them (recording the result), update the counters, then let
`gnss.checkUblox()` append newly arrived bytes. -/
def innerLoop (env : List InnerInput) (buf : List Nat) (c : Counters)
    (log : List WriteEvent) : List Nat × Counters × List WriteEvent :=
  match env with
  | [] => drainFullBlocks buf c log
  | (ok, arr) :: rest =>
    if sdWriteSize ≤ buf.length then
      innerLoop rest (buf.drop sdWriteSize ++ arr) (blockWriteStep c ok)
        (log ++ [(buf.take sdWriteSize, ok)])
    else
      (buf, c, log)

/-- The outer `while (!alarmFlag)` loop of `logGnss`: each iteration runs
`gnss.checkUblox()`, the inner full-block loop, and the periodic
`logFile.sync()` when the flush interval has elapsed (counting a failure
in `syncFailCounter`). -/
def outerLoop (iters : List OuterIter) (buf : List Nat) (c : Counters)
    (log : List WriteEvent) : List Nat × Counters × List WriteEvent :=
  match iters with
  | [] => (buf, c, log)
  | it :: rest =>
    let r := innerLoop it.innerEnv (buf ++ it.arrival) c log
    let c2 :=
      if it.syncDue && !it.syncOk then
        { r.2.1 with syncFailCounter := r.2.1.syncFailCounter + 1 }
      else r.2.1
    outerLoop rest r.1 c2 r.2.2

/-- The end-of-session drain loop of `logGnss` (source lines 943-974):
write the remaining buffered bytes `sdWriteSize` bytes at a time; the
result of `logFile.write` is ignored and `bytesWritten` is incremented by
the attempted size. -/
def drainRemaining (buf : List Nat) (results : List Bool) (c : Counters)
    (log : List WriteEvent) : Counters × List WriteEvent :=
  if buf.length = 0 then
    (c, log)
  else
    let n := min sdWriteSize buf.length
    drainRemaining (buf.drop n) results.tail
      { c with bytesWritten := c.bytesWritten + n }
      (log ++ [(buf.take n, results.headD true)])
termination_by buf.length
decreasing_by
  simp only [List.length_drop]
  simp only [sdWriteSize] at *
  omega

/-- Result of one `logGnss` session: the final counters, the write events
of the in-session full-block loop, and the write events of the final
drain loop. -/
structure SessionResult where
  counters : Counters
  blockWrites : List WriteEvent
  drainWrites : List WriteEvent

/-- `logGnss()` from the main sketch, for a session whose log file opens
successfully, starting from the global counters `c0` carried over from
before the session.  The source line

`bytesWritten, writeFailCounter, syncFailCounter, closeFailCounter = 0;`

is a C++ comma expression: only `closeFailCounter` is assigned, the other
three globals are merely read, so the model resets only
`closeFailCounter`. -/
def logGnss (c0 : Counters) (env : Env) : SessionResult :=
  let c1 : Counters := { c0 with closeFailCounter := 0 }
  let r := outerLoop env.iters [] c1 []
  let d := drainRemaining r.1 env.drainResults r.2.1 []
  let c4 :=
    if env.finalSyncOk then d.1
    else { d.1 with syncFailCounter := d.1.syncFailCounter + 1 }
  let c5 :=
    if env.closeOk then c4
    else { c4 with closeFailCounter := c4.closeFailCounter + 1 }
  { counters := c5, blockWrites := r.2.2, drainWrites := d.2 }

/-- Total number of payload bytes across a list of write events. -/
def payloadBytes (ws : List WriteEvent) : Nat :=
  (ws.map fun w => w.1.length).sum

/-- Concatenation, in order, of the payloads of a list of write events. -/
def payloadStream (ws : List WriteEvent) : List Nat :=
  (ws.map fun w => w.1).flatten

/-- Number of payload bytes of the successfully committed writes. -/
def committedBytes (ws : List WriteEvent) : Nat :=
  payloadBytes (ws.filter fun w => w.2)

/-- Number of failed writes in a list of write events. -/
def failedWrites (ws : List WriteEvent) : Nat :=
  (ws.filter fun w => w.2 = false).length

/-- All bytes the environment can deliver during the session, in FIFO
arrival order: for each outer iteration, the leading `checkUblox` arrival
followed by the per-inner-iteration arrivals. -/
def sessionArrivals (env : Env) : List Nat :=
  (env.iters.map fun it =>
    it.arrival ++ (it.innerEnv.map fun i => i.2).flatten).flatten

/-! ## Time synchronization (`syncRtc` of the main sketch)

The RTC is modelled by its epoch; the calendar registers read back by
`rtc.getTime()` are obtained by the standard civil-from-days conversion
(all quantities are non-negative, so `Nat` division coincides with the C
`int` division used by the clock library). -/

/-- Calendar conversion of a Unix epoch to UTC fields, as performed by
the RTC hardware/library between `rtc.setEpoch` and `rtc.getTime`.
`year` is the full year; the RTC register holds `year - 2000`. -/
def epochToUtc (e : Nat) : DateTime :=
  let days := e / 86400
  let secsOfDay := e % 86400
  let z := days + 719468
  let era := z / 146097
  let doe := z % 146097
  let yoe := (doe - doe / 1460 + doe / 36524 - doe / 146096) / 365
  let y := yoe + era * 400
  let doy := doe - (365 * yoe + yoe / 4 - yoe / 100)
  let mp := (5 * doy + 2) / 153
  let d := doy - (153 * mp + 2) / 5 + 1
  let m := if mp < 10 then mp + 3 else mp - 9
  { hour := secsOfDay / 3600, minute := secsOfDay % 3600 / 60,
    seconds := secsOfDay % 60, dayOfMonth := d, month := m,
    year := (if m ≤ 2 then y + 1 else y) - 2000 }

/-- The timestamp fields baked into a log file name by
`getLogFileName()`: `sprintf(logFileName, "GVT_0_20%02d%02d%02d_%02d%02d%02d.ubx", rtc.year, rtc.month, rtc.dayOfMonth, rtc.hour, rtc.minute, rtc.seconds)`. -/
structure LogName where
  year : Nat
  month : Nat
  dayOfMonth : Nat
  hour : Nat
  minute : Nat
  seconds : Nat
deriving Repr, DecidableEq

/-- `getLogFileName()` from the main sketch: format the RTC's current
date and time into the session file name. -/
def getLogFileName (now : DateTime) : LogName :=
  ⟨now.year, now.month, now.dayOfMonth, now.hour, now.minute, now.seconds⟩

/-- The log file name derived from the clock at a given epoch. -/
def logNameFromEpoch (e : Nat) : LogName :=
  getLogFileName (epochToUtc e)

/-- 32-bit `unsigned long` subtraction `a - b`, wrapping modulo `2^32`. -/
def usub32 (a b : Nat) : Nat :=
  (a % 2 ^ 32 + (2 ^ 32 - b % 2 ^ 32)) % 2 ^ 32

/-- Reinterpretation of a 32-bit unsigned value as a signed `long`
(two's complement), as happens when `gnssEpoch - rtcEpoch` is assigned to
the `long` global `rtcDrift`. -/
def toSigned32 (n : Nat) : Int :=
  let m : Nat := n % 2 ^ 32
  if m < 2 ^ 31 then (m : Int) else (m : Int) - 2 ^ 32

/-- One `UBX-NAV-PVT` message as polled by `syncRtc`: fix type,
confirmed-date and confirmed-time flags, and the GNSS epoch. -/
structure PvtFix where
  fixType : Nat
  dateValid : Bool
  timeValid : Bool
  gnssEpoch : Nat
deriving Repr, DecidableEq

/-- The acceptance test of `syncRtc`:
`fixType == 3 && dateValidFlag && timeValidFlag`. -/
def fixAcceptable (f : PvtFix) : Bool :=
  decide (f.fixType = 3) && f.dateValid && f.timeValid

/-- The state read and written by `syncRtc`: the RTC epoch, the current
session file name, the `rtcSyncFlag` and `rtcDrift` globals, and a count
of how many times `getLogFileName()` has regenerated the name. -/
structure SyncRtcState where
  rtcEpoch : Nat
  logFileName : LogName
  rtcSyncFlag : Bool
  rtcDrift : Int
  regenCount : Nat
deriving Repr, DecidableEq

/-- Handling of one polled PVT message inside the `syncRtc` acquisition
loop (source lines 769-792).  Once `rtcSyncFlag` is set the loop has
exited, so later messages are ignored.  On acceptance: read the RTC
epoch, set the RTC to the GNSS epoch, record the drift, and regenerate
the log file name from the corrected clock when `abs(rtcDrift) > 30`. -/
def syncStep (s : SyncRtcState) (f : PvtFix) : SyncRtcState :=
  if s.rtcSyncFlag then s
  else if fixAcceptable f then
    let drift := toSigned32 (usub32 f.gnssEpoch s.rtcEpoch)
    let s2 : SyncRtcState :=
      { s with rtcEpoch := f.gnssEpoch, rtcDrift := drift, rtcSyncFlag := true }
    if 30 < drift.natAbs then
      { s2 with logFileName := logNameFromEpoch f.gnssEpoch,
                regenCount := s2.regenCount + 1 }
    else s2
  else s

/-- `syncRtc()` from the main sketch (GNSS online case), processing the
PVT messages received during the acquisition window: `rtcSyncFlag` is
cleared on entry and the poll loop runs until a fix is accepted or the
window closes (`fixes` lists exactly the messages polled in the window). -/
def syncRtc (s0 : SyncRtcState) (fixes : List PvtFix) : SyncRtcState :=
  fixes.foldl syncStep { s0 with rtcSyncFlag := false }

/-- `gnssTimeout` from the main sketch: "Timeout for GNSS signal
acquisition (seconds)". -/
def gnssTimeout : Nat := 300

/-- The acquisition-window bound in milliseconds actually computed by the
`syncRtc` loop guard: `gnssTimeout * 10UL * 1000UL`. -/
def syncWindowMs : Nat := gnssTimeout * 10 * 1000

/-- The `syncRtc` poll-loop guard
`!rtcSyncFlag && millis() - loopStartTime < gnssTimeout * 10UL * 1000UL`. -/
def syncLoopContinues (elapsedMs : Nat) (rtcSyncFlag : Bool) : Bool :=
  !rtcSyncFlag && decide (elapsedMs < syncWindowMs)

/-- The daily re-sync gate in `loop()` (source lines 541-549): `syncRtc`
is invoked iff the stored `dateCurrent` differs from the day just read
into `dateNew`, after which `dateCurrent` is set to `dateNew`.  Returns
(whether `syncRtc` runs, the new `dateCurrent`). -/
def wakeCycleSyncGate (dateCurrent dateNew : Nat) : Bool × Nat :=
  if dateCurrent ≠ dateNew then (true, dateNew) else (false, dateCurrent)

/-! ## Concrete inputs used by witnesses and counterexamples -/

/-- A rolling-mode configuration with a 1 h 30 min awake/sleep duration. -/
def cfgRolling : RtcConfig :=
  { normalOperationMode := 2, summerMode := false,
    alarmStartHour := 13, alarmStartMinute := 0,
    alarmStopHour := 14, alarmStopMinute := 0,
    alarmAwakeHours := 1, alarmAwakeMinutes := 30,
    alarmSleepHours := 1, alarmSleepMinutes := 30,
    alarmSummerStartDay := 5, alarmSummerStartMonth := 2,
    alarmSummerEndDay := 2, alarmSummerEndMonth := 6 }

/-- The RTC reading 23:45 on February 4. -/
def nowLateEvening : DateTime :=
  { hour := 23, minute := 45, seconds := 0, dayOfMonth := 4, month := 2, year := 25 }

/-- A configuration whose user mode is already Continuous (documented
value `3: 24-hour/day`) with the seasonal flag off. -/
def cfgUserContinuous : RtcConfig :=
  { normalOperationMode := 3, summerMode := false,
    alarmStartHour := 13, alarmStartMinute := 0,
    alarmStopHour := 14, alarmStopMinute := 0,
    alarmAwakeHours := 1, alarmAwakeMinutes := 0,
    alarmSleepHours := 1, alarmSleepMinutes := 0,
    alarmSummerStartDay := 5, alarmSummerStartMonth := 2,
    alarmSummerEndDay := 2, alarmSummerEndMonth := 6 }

/-- The RTC reading March 1. -/
def nowMarchFirst : DateTime :=
  { hour := 10, minute := 0, seconds := 0, dayOfMonth := 1, month := 3, year := 25 }

/-- Daily-mode configuration with the seasonal override enabled, a
seasonal window starting February 5, and a daily stop time of 14:30. -/
def cfgDailySummer : RtcConfig :=
  { normalOperationMode := 1, summerMode := true,
    alarmStartHour := 13, alarmStartMinute := 0,
    alarmStopHour := 14, alarmStopMinute := 30,
    alarmAwakeHours := 0, alarmAwakeMinutes := 0,
    alarmSleepHours := 0, alarmSleepMinutes := 0,
    alarmSummerStartDay := 5, alarmSummerStartMonth := 2,
    alarmSummerEndDay := 2, alarmSummerEndMonth := 6 }

/-- February 4 (the day before the seasonal window opens) at 15:00 —
after the 14:30 daily stop time. -/
def nowAfterStop : DateTime :=
  { hour := 15, minute := 0, seconds := 0, dayOfMonth := 4, month := 2, year := 25 }

/-- February 4 at 14:30, satisfying the code's field-wise stop check. -/
def nowAtStop : DateTime :=
  { hour := 14, minute := 30, seconds := 0, dayOfMonth := 4, month := 2, year := 25 }

/-- A configuration whose seasonal window spans the turn of the year
(November 1 through February 28). -/
def cfgWinterWindow : RtcConfig :=
  { normalOperationMode := 1, summerMode := true,
    alarmStartHour := 13, alarmStartMinute := 0,
    alarmStopHour := 14, alarmStopMinute := 0,
    alarmAwakeHours := 1, alarmAwakeMinutes := 0,
    alarmSleepHours := 1, alarmSleepMinutes := 0,
    alarmSummerStartDay := 1, alarmSummerStartMonth := 11,
    alarmSummerEndDay := 28, alarmSummerEndMonth := 2 }

/-- The RTC reading July 15 — inside the intended wrap-around window. -/
def nowJulyMid : DateTime :=
  { hour := 12, minute := 0, seconds := 0, dayOfMonth := 15, month := 7, year := 25 }

/-- All-zero counters, the state of the globals at boot. -/
def zeroCounters : Counters := ⟨0, 0, 0, 0⟩

/-- Counters carried over from an earlier session. -/
def staleCounters : Counters := ⟨512, 1, 1, 1⟩

/-- An environment in which the alarm fires before any data arrives. -/
def envEmptySession : Env :=
  { iters := [], drainResults := [], finalSyncOk := true, closeOk := true }

/-- An environment delivering exactly one full block whose storage write
fails; nothing is left for the final drain. -/
def envOneFailedBlock : Env :=
  { iters := [{ arrival := List.replicate 512 7, innerEnv := [(false, [])],
                syncDue := false, syncOk := true }],
    drainResults := [], finalSyncOk := true, closeOk := true }

/-- An environment delivering 100 bytes (less than one block), so that the
only write is the final partial drain — and that drain write fails. -/
def envDrainFail : Env :=
  { iters := [{ arrival := List.replicate 100 3, innerEnv := [],
                syncDue := false, syncOk := true }],
    drainResults := [false], finalSyncOk := true, closeOk := true }

/-- A pre-sync RTC/session state at epoch 1700000000. -/
def s0SyncEx : SyncRtcState :=
  { rtcEpoch := 1700000000, logFileName := ⟨23, 1, 1, 1, 1, 1⟩,
    rtcSyncFlag := false, rtcDrift := 0, regenCount := 0 }

/-- An acceptable 3D fix whose epoch is 100 s ahead of the local clock. -/
def fixGood : PvtFix := ⟨3, true, true, 1700000100⟩

/-- A fix that fails the acceptance test (`fixType == 2`). -/
def fixBad : PvtFix := ⟨2, true, true, 1700000100⟩

/-! ## Helper lemmas -/

theorem payloadBytes_append (a b : List WriteEvent) :
    payloadBytes (a ++ b) = payloadBytes a + payloadBytes b := by
  simp [payloadBytes]

theorem payloadBytes_single (p : List Nat) (ok : Bool) :
    payloadBytes [(p, ok)] = p.length := by
  simp [payloadBytes]

theorem payloadStream_append (a b : List WriteEvent) :
    payloadStream (a ++ b) = payloadStream a ++ payloadStream b := by
  simp [payloadStream]

theorem payloadStream_single (p : List Nat) (ok : Bool) :
    payloadStream [(p, ok)] = p := by
  simp [payloadStream]

theorem failedWrites_append (a b : List WriteEvent) :
    failedWrites (a ++ b) = failedWrites a + failedWrites b := by
  simp [failedWrites]

theorem failedWrites_single (p : List Nat) (ok : Bool) :
    failedWrites [(p, ok)] = if ok then 0 else 1 := by
  cases ok <;> simp [failedWrites]

theorem drainFullBlocks_spec (buf : List Nat) (c : Counters) (log : List WriteEvent) :
    (drainFullBlocks buf c log).2.1.bytesWritten + payloadBytes log =
      c.bytesWritten + payloadBytes (drainFullBlocks buf c log).2.2 ∧
    (drainFullBlocks buf c log).2.1.writeFailCounter + failedWrites log =
      c.writeFailCounter + failedWrites (drainFullBlocks buf c log).2.2 ∧
    (drainFullBlocks buf c log).2.1.syncFailCounter = c.syncFailCounter ∧
    (drainFullBlocks buf c log).2.1.closeFailCounter = c.closeFailCounter ∧
    payloadStream (drainFullBlocks buf c log).2.2 ++ (drainFullBlocks buf c log).1 =
      payloadStream log ++ buf := by
  induction buf, c, log using drainFullBlocks.induct with
  | case1 buf c log h ih =>
    rw [drainFullBlocks, if_pos h]
    set r := drainFullBlocks (List.drop sdWriteSize buf) (blockWriteStep c true)
      (log ++ [(List.take sdWriteSize buf, true)]) with hr
    obtain ⟨ih1, ih2, ih3, ih4, ih5⟩ := ih
    have htake : (buf.take sdWriteSize).length = sdWriteSize := by
      rw [List.length_take]; omega
    rw [payloadBytes_append, payloadBytes_single, htake] at ih1
    rw [failedWrites_append, failedWrites_single] at ih2
    rw [payloadStream_append, payloadStream_single] at ih5
    simp only [blockWriteStep, if_true] at ih1 ih2 ih3 ih4
    refine ⟨by omega, by omega, ih3, ih4, ?_⟩
    rw [ih5, List.append_assoc, List.take_append_drop]
  | case2 buf c log h =>
    rw [drainFullBlocks, if_neg h]
    exact ⟨rfl, rfl, rfl, rfl, rfl⟩

theorem take_drop_assoc (n : Nat) (l X : List Nat) :
    l.take n ++ (l.drop n ++ X) = l ++ X := by
  rw [← List.append_assoc, List.take_append_drop]

theorem innerLoop_spec (env : List InnerInput) (buf : List Nat) (c : Counters)
    (log : List WriteEvent) :
    (innerLoop env buf c log).2.1.bytesWritten + payloadBytes log =
      c.bytesWritten + payloadBytes (innerLoop env buf c log).2.2 ∧
    (innerLoop env buf c log).2.1.writeFailCounter + failedWrites log =
      c.writeFailCounter + failedWrites (innerLoop env buf c log).2.2 ∧
    (innerLoop env buf c log).2.1.syncFailCounter = c.syncFailCounter ∧
    (innerLoop env buf c log).2.1.closeFailCounter = c.closeFailCounter ∧
    ∃ consumed : List Nat,
      List.Sublist consumed ((env.map fun i => i.2).flatten) ∧
      payloadStream (innerLoop env buf c log).2.2 ++ (innerLoop env buf c log).1 =
        payloadStream log ++ buf ++ consumed := by
  induction env generalizing buf c log with
  | nil =>
    obtain ⟨h1, h2, h3, h4, h5⟩ := drainFullBlocks_spec buf c log
    exact ⟨h1, h2, h3, h4, [], List.Sublist.refl _, by simpa using h5⟩
  | cons head rest ih =>
    obtain ⟨ok, arr⟩ := head
    simp only [innerLoop]
    by_cases h : sdWriteSize ≤ buf.length
    · rw [if_pos h]
      obtain ⟨ih1, ih2, ih3, ih4, consumed, hsub, hstream⟩ :=
        ih (buf.drop sdWriteSize ++ arr) (blockWriteStep c ok)
          (log ++ [(buf.take sdWriteSize, ok)])
      set r := innerLoop rest (buf.drop sdWriteSize ++ arr) (blockWriteStep c ok)
        (log ++ [(buf.take sdWriteSize, ok)]) with hrdef
      have htake : (buf.take sdWriteSize).length = sdWriteSize := by
        rw [List.length_take]; omega
      rw [payloadBytes_append, payloadBytes_single, htake] at ih1
      rw [failedWrites_append, failedWrites_single] at ih2
      rw [payloadStream_append, payloadStream_single] at hstream
      refine ⟨?_, ?_, ?_, ?_, arr ++ consumed, ?_, ?_⟩
      · simp only [blockWriteStep] at ih1; omega
      · rcases Bool.eq_false_or_eq_true ok with hok | hok <;>
          simp only [hok, blockWriteStep, if_true, if_false] at ih2 <;>
          simp at ih2 <;> omega
      · simpa [blockWriteStep] using ih3
      · simpa [blockWriteStep] using ih4
      · simpa using List.Sublist.append (List.Sublist.refl arr) hsub
      · rw [hstream]
        simp only [List.append_assoc, take_drop_assoc]
    · rw [if_neg h]
      exact ⟨rfl, rfl, rfl, rfl, [], List.nil_sublist _, by simp⟩

theorem outerLoop_spec (iters : List OuterIter) (buf : List Nat) (c : Counters)
    (log : List WriteEvent) :
    (outerLoop iters buf c log).2.1.bytesWritten + payloadBytes log =
      c.bytesWritten + payloadBytes (outerLoop iters buf c log).2.2 ∧
    (outerLoop iters buf c log).2.1.writeFailCounter + failedWrites log =
      c.writeFailCounter + failedWrites (outerLoop iters buf c log).2.2 ∧
    (outerLoop iters buf c log).2.1.closeFailCounter = c.closeFailCounter ∧
    ∃ consumed : List Nat,
      List.Sublist consumed
        ((iters.map fun it =>
          it.arrival ++ (it.innerEnv.map fun i => i.2).flatten).flatten) ∧
      payloadStream (outerLoop iters buf c log).2.2 ++ (outerLoop iters buf c log).1 =
        payloadStream log ++ buf ++ consumed := by
  induction iters generalizing buf c log with
  | nil => exact ⟨rfl, rfl, rfl, [], List.nil_sublist _, by simp [outerLoop]⟩
  | cons it rest ih =>
    simp only [outerLoop]
    obtain ⟨i1, i2, i3, i4, ci, hsubi, hsi⟩ :=
      innerLoop_spec it.innerEnv (buf ++ it.arrival) c log
    set rI := innerLoop it.innerEnv (buf ++ it.arrival) c log with hrI
    set c2 := (if it.syncDue && !it.syncOk then
        { rI.2.1 with syncFailCounter := rI.2.1.syncFailCounter + 1 }
      else rI.2.1) with hc2
    obtain ⟨o1, o2, o3, co, hsubo, hso⟩ := ih rI.1 c2 rI.2.2
    have hcb : c2.bytesWritten = rI.2.1.bytesWritten := by
      rw [hc2]; split <;> rfl
    have hcw : c2.writeFailCounter = rI.2.1.writeFailCounter := by
      rw [hc2]; split <;> rfl
    have hcc : c2.closeFailCounter = rI.2.1.closeFailCounter := by
      rw [hc2]; split <;> rfl
    refine ⟨by omega, by omega, by omega, it.arrival ++ (ci ++ co), ?_, ?_⟩
    · simpa [List.append_assoc] using
        List.Sublist.append (List.Sublist.refl it.arrival)
          (List.Sublist.append hsubi hsubo)
    · rw [hso, hsi]
      simp [List.append_assoc]

theorem drainRemaining_spec (buf : List Nat) (results : List Bool) (c : Counters)
    (log : List WriteEvent) :
    (drainRemaining buf results c log).1.bytesWritten + payloadBytes log =
      c.bytesWritten + payloadBytes (drainRemaining buf results c log).2 ∧
    (drainRemaining buf results c log).1.writeFailCounter = c.writeFailCounter ∧
    (drainRemaining buf results c log).1.syncFailCounter = c.syncFailCounter ∧
    (drainRemaining buf results c log).1.closeFailCounter = c.closeFailCounter ∧
    payloadStream (drainRemaining buf results c log).2 = payloadStream log ++ buf := by
  induction buf, results, c, log using drainRemaining.induct with
  | case1 buf results c log h =>
    rw [drainRemaining, if_pos h]
    have hb : buf = [] := List.length_eq_zero.mp h
    exact ⟨rfl, rfl, rfl, rfl, by simp [hb]⟩
  | case2 buf results c log h n ih =>
    have hn : n = min sdWriteSize buf.length := rfl
    rw [hn] at ih
    rw [drainRemaining, if_neg h]
    obtain ⟨ih1, ih2, ih3, ih4, ih5⟩ := ih
    set r := drainRemaining (buf.drop (min sdWriteSize buf.length)) results.tail
      { c with bytesWritten := c.bytesWritten + min sdWriteSize buf.length }
      (log ++ [(buf.take (min sdWriteSize buf.length), results.headD true)]) with hr
    have htake : (buf.take (min sdWriteSize buf.length)).length =
        min sdWriteSize buf.length := by
      rw [List.length_take]; omega
    rw [payloadBytes_append, payloadBytes_single, htake] at ih1
    rw [payloadStream_append, payloadStream_single] at ih5
    refine ⟨by simp only [] at ih1 ⊢; omega, ih2, ih3, ih4, ?_⟩
    rw [ih5, List.append_assoc, List.take_append_drop]

theorem payloadBytes_nil : payloadBytes [] = 0 := rfl

theorem payloadStream_nil : payloadStream [] = [] := rfl

theorem failedWrites_nil : failedWrites [] = 0 := rfl

/-! ## Claim theorems -/

/-- **C2** (code_bug evidence).  The claim says that at session start all
four counters — `bytesWritten`, `writeFailCounter`, `syncFailCounter` and
`closeFailCounter` — are reset to zero.  The statement
`bytesWritten, writeFailCounter, syncFailCounter, closeFailCounter = 0;`
under the comment `// Reset counters` is a C++ comma expression that
assigns only `closeFailCounter`.  Starting a session with carried-over
counters `(512, 1, 1, 1)` and an empty environment, the counters at
session close are `(512, 1, 1, 0)`: the first three survive the "reset". -/
theorem logGnss_reset_only_closeFail_c2 :
    (logGnss staleCounters envEmptySession).counters =
      ⟨512, 1, 1, 0⟩ := by
  simp [logGnss, outerLoop, drainRemaining, staleCounters, envEmptySession]

/-- **C3** (code_bug evidence).  The claim says the time-sync polling
loop stops accepting fixes once 300 s elapse (the configured
`gnssTimeout = 300` seconds).  The loop guard computes the window as
`gnssTimeout * 10UL * 1000UL` milliseconds — 3 000 000 ms, i.e. 3000 s —
so at 301 s elapsed with no accepted fix the loop is still polling. -/
theorem syncWindow_timeout_bug_c3 :
    syncWindowMs = 3000000 ∧ syncLoopContinues 301000 false = true := by
  constructor <;> rfl

set_option maxRecDepth 4000 in
/-- **C1** (counterexample).  The claim says `bytesWritten` equals the
sum of the successfully committed full blocks plus the final partial
drain, a failed block contributing nothing.  Feeding one 512-byte block
whose storage write fails (and nothing else), the session ends with
`bytesWritten = 512` although no write succeeded and the drain was empty:
the claimed sum is `0`. -/
theorem logGnss_bytesWritten_counterexample_c1 :
    (logGnss zeroCounters envOneFailedBlock).counters.bytesWritten = 512 ∧
    committedBytes ((logGnss zeroCounters envOneFailedBlock).blockWrites ++
      (logGnss zeroCounters envOneFailedBlock).drainWrites) = 0 := by
  constructor <;>
    simp [logGnss, outerLoop, innerLoop, drainFullBlocks, drainRemaining,
      blockWriteStep, envOneFailedBlock, zeroCounters, committedBytes,
      payloadBytes, sdWriteSize, List.drop_replicate, List.take_replicate]

/-- **C1** (amended).  For every starting counter state and every
environment script, the final `bytesWritten` equals its value at session
entry (it is not reset — see C2) plus the total size of **all** write
payloads of the session: every attempted full-block write contributes
`sdWriteSize` whether or not the storage write succeeded, and every final
drain write contributes its size regardless of its (unchecked) result. -/
theorem logGnss_bytesWritten_c1 (c0 : Counters) (env : Env) :
    (logGnss c0 env).counters.bytesWritten =
      c0.bytesWritten +
        payloadBytes ((logGnss c0 env).blockWrites ++ (logGnss c0 env).drainWrites) := by
  obtain ⟨o1, -, -, -⟩ :=
    outerLoop_spec env.iters [] { c0 with closeFailCounter := 0 } []
  obtain ⟨d1, -, -, -, -⟩ := drainRemaining_spec
    (outerLoop env.iters [] { c0 with closeFailCounter := 0 } []).1 env.drainResults
    (outerLoop env.iters [] { c0 with closeFailCounter := 0 } []).2.1 []
  simp only [logGnss]
  set r := outerLoop env.iters [] { c0 with closeFailCounter := 0 } [] with hrdef
  set d := drainRemaining r.1 env.drainResults r.2.1 [] with hddef
  have hc1 : ({ c0 with closeFailCounter := 0 } : Counters).bytesWritten =
      c0.bytesWritten := rfl
  rw [payloadBytes_nil] at o1 d1
  rw [payloadBytes_append]
  by_cases hfs : env.finalSyncOk <;> by_cases hco : env.closeOk <;>
    simp only [hfs, hco, if_true, if_false, Bool.false_eq_true] <;> omega

set_option maxRecDepth 4000 in
/-- **C4** (counterexample).  The claim says `writeFailCounter` is
incremented exactly once per failed write call for both the in-session
full-block writes and the final drain.  Feeding 100 bytes (less than one
block) and failing the single final-drain write, the session ends with a
failed drain write on record but `writeFailCounter = 0`: the drain loop
never checks the result of `logFile.write`. -/
theorem logGnss_drainFail_counterexample_c4 :
    (logGnss zeroCounters envDrainFail).counters.writeFailCounter = 0 ∧
    (logGnss zeroCounters envDrainFail).drainWrites =
      [(List.replicate 100 3, false)] := by
  constructor <;>
    simp [logGnss, outerLoop, innerLoop, drainFullBlocks, drainRemaining,
      blockWriteStep, envDrainFail, zeroCounters, sdWriteSize,
      List.drop_replicate, List.take_replicate]

/-- **C4** (amended).  For every starting counter state and environment
script: `writeFailCounter` grows by exactly the number of failed
full-block writes of the session loop — the final drain's writes are
unchecked and never counted — and no payload byte is ever extracted or
written twice: the concatenation of all write payloads (full blocks then
drain), in order, is a sublist of the byte stream the receiver delivered,
so a failed write's payload is never reattempted. -/
theorem logGnss_writeFail_no_retry_c4 (c0 : Counters) (env : Env) :
    (logGnss c0 env).counters.writeFailCounter =
      c0.writeFailCounter + failedWrites (logGnss c0 env).blockWrites ∧
    List.Sublist
      (payloadStream ((logGnss c0 env).blockWrites ++ (logGnss c0 env).drainWrites))
      (sessionArrivals env) := by
  obtain ⟨-, o2, -, consumed, hsub, hstream⟩ :=
    outerLoop_spec env.iters [] { c0 with closeFailCounter := 0 } []
  obtain ⟨-, d2, -, -, d5⟩ := drainRemaining_spec
    (outerLoop env.iters [] { c0 with closeFailCounter := 0 } []).1 env.drainResults
    (outerLoop env.iters [] { c0 with closeFailCounter := 0 } []).2.1 []
  simp only [logGnss]
  set r := outerLoop env.iters [] { c0 with closeFailCounter := 0 } [] with hrdef
  set d := drainRemaining r.1 env.drainResults r.2.1 [] with hddef
  have hc1 : ({ c0 with closeFailCounter := 0 } : Counters).writeFailCounter =
      c0.writeFailCounter := rfl
  rw [failedWrites_nil] at o2
  rw [payloadStream_nil, List.nil_append] at hstream d5
  constructor
  · by_cases hfs : env.finalSyncOk <;> by_cases hco : env.closeOk <;>
      simp only [hfs, hco, if_true, if_false, Bool.false_eq_true] <;> omega
  · rw [List.nil_append] at hstream
    rw [payloadStream_append, d5, hstream]
    exact hsub

theorem checkOperationMode_minute_invariant (cfg : RtcConfig) (now : DateTime)
    (m : Nat) :
    checkOperationMode cfg { now with minute := m } = checkOperationMode cfg now :=
  rfl

/-- **C5** (confirmed).  In rolling mode both alarm routines program the
hour field `(now.hour + duration.hours) % 24` and the minute field
`(now.minute + duration.minutes) % 60`; the hour field does not depend on
the minute of the current time at all (third conjunct), so a minute sum
of 60 or more never carries into the hour. -/
theorem rolling_alarm_independent_c5 (cfg : RtcConfig) (now : DateTime)
    (pl ps : Nat) (hmode : checkOperationMode cfg now = ROLLING) :
    (setAwakeAlarm cfg now pl).programmed = some
      ⟨(now.hour + cfg.alarmAwakeHours) % 24,
       (now.minute + cfg.alarmAwakeMinutes) % 60, 0, 0,
       now.dayOfMonth, now.month⟩ ∧
    (setSleepAlarm cfg now ps).programmed = some
      ⟨(now.hour + cfg.alarmSleepHours) % 24,
       (now.minute + cfg.alarmSleepMinutes) % 60, 0, 0,
       now.dayOfMonth, now.month⟩ ∧
    ∀ m : Nat, (setAwakeAlarm cfg { now with minute := m } pl).programmed = some
      ⟨(now.hour + cfg.alarmAwakeHours) % 24,
       (m + cfg.alarmAwakeMinutes) % 60, 0, 0,
       now.dayOfMonth, now.month⟩ := by
  refine ⟨?_, ?_, fun m => ?_⟩ <;>
    simp only [setAwakeAlarm, setSleepAlarm, checkOperationMode_minute_invariant,
      hmode] <;>
    simp [ROLLING, DAILY]

/-- Witness for C5: `now = 23:45`, awake duration 1 h 30 min gives the
alarm 00:15 — minute overflow does not carry into the hour. -/
theorem rolling_alarm_independent_c5_witness :
    checkOperationMode cfgRolling nowLateEvening = ROLLING ∧
    (setAwakeAlarm cfgRolling nowLateEvening 4).programmed =
      some ⟨0, 15, 0, 0, 4, 2⟩ := by
  refine ⟨by decide, ?_⟩
  have h := (rolling_alarm_independent_c5 cfgRolling nowLateEvening 4 4 (by decide)).1
  rw [h]
  decide

/-- **C8** (counterexample).  The claim states the derived mode is
Continuous *iff* the seasonal flag is set and the date is inside the
window.  With the user mode itself set to Continuous (documented
configuration `3: 24-hour/day`) and the seasonal flag off, the derived
mode is Continuous although the right-hand side of the iff is false. -/
theorem checkOperationMode_iff_fails_c8 :
    checkOperationMode cfgUserContinuous nowMarchFirst = CONTINUOUS ∧
    cfgUserContinuous.summerMode = false := by
  decide

/-- **C8** (amended).  The derived mode is a pure function of the current
month/day, the user mode, the seasonal flag and the window: it is
Continuous iff the seasonal flag is set and `startMD ≤ currentMD ≤ endMD`
**or** the user mode is itself Continuous; when the seasonal condition
does not hold it equals `normalOperationMode`; two calls with unchanged
inputs agree. -/
theorem checkOperationMode_characterization_c8 (cfg : RtcConfig) (now : DateTime) :
    (checkOperationMode cfg now = CONTINUOUS ↔
      (cfg.summerMode = true ∧ summerStartMD cfg ≤ currentMD now ∧
        currentMD now ≤ summerEndMD cfg) ∨
      cfg.normalOperationMode = CONTINUOUS) ∧
    (¬ (cfg.summerMode = true ∧ summerStartMD cfg ≤ currentMD now ∧
        currentMD now ≤ summerEndMD cfg) →
      checkOperationMode cfg now = cfg.normalOperationMode) ∧
    checkOperationMode cfg now = checkOperationMode cfg now := by
  unfold checkOperationMode isSummer
  rcases hsm : cfg.summerMode <;>
    by_cases h1 : summerStartMD cfg ≤ currentMD now <;>
    by_cases h2 : currentMD now ≤ summerEndMD cfg <;>
    simp [hsm, h1, h2]

/-- **C10** (confirmed).  A seasonal window whose encoded start exceeds
its encoded end (a window spanning the turn of the year) can never be
satisfied: `isSummer` is false on every date, so the derived mode always
equals `normalOperationMode` and the override never engages. -/
theorem winter_window_never_summer_c10 (cfg : RtcConfig) (now : DateTime)
    (h : summerEndMD cfg < summerStartMD cfg) :
    isSummer cfg now = false ∧
    checkOperationMode cfg now = cfg.normalOperationMode := by
  have hs : isSummer cfg now = false := by
    cases hIs : isSummer cfg now
    · rfl
    · exfalso
      simp only [isSummer, Bool.and_eq_true, decide_eq_true_eq] at hIs
      omega
  exact ⟨hs, by simp [checkOperationMode, hs]⟩

/-- Witness for C10: window November 1 – February 28, date July 15. -/
theorem winter_window_never_summer_c10_witness :
    summerEndMD cfgWinterWindow < summerStartMD cfgWinterWindow ∧
    isSummer cfgWinterWindow nowJulyMid = false ∧
    checkOperationMode cfgWinterWindow nowJulyMid =
      cfgWinterWindow.normalOperationMode :=
  ⟨by decide, winter_window_never_summer_c10 cfgWinterWindow nowJulyMid (by decide)⟩

theorem getLastDayOfMonth_le (m y : Nat) : getLastDayOfMonth m y ≤ 31 := by
  unfold getLastDayOfMonth
  split_ifs <;> omega

theorem isLastDayBeforeSummer_not_summer (cfg : RtcConfig) (now : DateTime)
    (h : isLastDayBeforeSummer cfg now = true) : isSummer cfg now = false := by
  cases hIs : isSummer cfg now
  · rfl
  exfalso
  simp only [isSummer, summerStartMD, summerEndMD, currentMD, Bool.and_eq_true,
    decide_eq_true_eq] at hIs
  unfold isLastDayBeforeSummer at h
  split at h
  · rename_i hd1
    simp only [Bool.and_eq_true, decide_eq_true_eq] at h
    obtain ⟨hd, hm⟩ := h
    have h31 := getLastDayOfMonth_le now.month now.year
    omega
  · rename_i hd1
    simp only [Bool.and_eq_true, decide_eq_true_eq] at h
    obtain ⟨hd, hm⟩ := h
    omega

theorem checkOperationMode_not_summer (cfg : RtcConfig) (now : DateTime)
    (h : isSummer cfg now = false) :
    checkOperationMode cfg now = cfg.normalOperationMode := by
  simp [checkOperationMode, h]

/-- **C9** (counterexample).  The claim's trigger is "today's Daily stop
time has already passed".  With stop time 14:30 and the clock at 15:00 on
the day before the seasonal window opens (override enabled, Daily mode),
the stop time has passed in clock order, yet the code's field-wise test
`rtc.hour >= alarmStopHour && rtc.minute >= alarmStopMinute` fails
(0 < 30), so `setSleepAlarm` programs the *normal* daily start-time alarm
instead of 00:00 on the seasonal start date, and `setAwakeAlarm` programs
a new stop-time wake alarm instead of returning. -/
theorem summer_transition_counterexample_c9 :
    cfgDailySummer.summerMode = true ∧
    isLastDayBeforeSummer cfgDailySummer nowAfterStop = true ∧
    60 * cfgDailySummer.alarmStopHour + cfgDailySummer.alarmStopMinute <
      60 * nowAfterStop.hour + nowAfterStop.minute ∧
    (setSleepAlarm cfgDailySummer nowAfterStop 4).programmed =
      some ⟨cfgDailySummer.alarmStartHour, cfgDailySummer.alarmStartMinute, 0, 0,
        nowAfterStop.dayOfMonth, nowAfterStop.month⟩ ∧
    (setAwakeAlarm cfgDailySummer nowAfterStop 4).programmed =
      some ⟨cfgDailySummer.alarmStopHour, cfgDailySummer.alarmStopMinute, 0, 0,
        nowAfterStop.dayOfMonth, nowAfterStop.month⟩ := by
  decide

/-- **C9** (amended).  In Daily mode with the seasonal override enabled,
on the code's last-day-before-summer date, whenever the code's field-wise
stop check holds — `rtc.hour ≥ alarmStopHour` **and** `rtc.minute ≥
alarmStopMinute` (not the claim's "stop time has already passed") —
`setSleepAlarm` programs 00:00 on the seasonal start date with alarm mode
4 and `setAwakeAlarm` returns without programming an alarm or an alarm
mode and without clearing the alarm flag. -/
theorem summer_transition_alarms_c9 (cfg : RtcConfig) (now : DateTime)
    (pa ps : Nat)
    (hdaily : cfg.normalOperationMode = DAILY)
    (hsm : cfg.summerMode = true)
    (hlast : isLastDayBeforeSummer cfg now = true)
    (hh : cfg.alarmStopHour ≤ now.hour)
    (hm : cfg.alarmStopMinute ≤ now.minute) :
    (setSleepAlarm cfg now ps).programmed =
      some ⟨0, 0, 0, 0, cfg.alarmSummerStartDay, cfg.alarmSummerStartMonth⟩ ∧
    (setSleepAlarm cfg now ps).alarmModeSet = some 4 ∧
    (setAwakeAlarm cfg now pa).programmed = none ∧
    (setAwakeAlarm cfg now pa).alarmModeSet = none ∧
    (setAwakeAlarm cfg now pa).alarmFlagCleared = false := by
  have hsummer := isLastDayBeforeSummer_not_summer cfg now hlast
  have hmode : checkOperationMode cfg now = DAILY := by
    rw [checkOperationMode_not_summer cfg now hsummer, hdaily]
  refine ⟨?_, ?_, ?_, ?_, ?_⟩ <;>
    simp [setSleepAlarm, setAwakeAlarm, hmode, hsm, hlast, hh, hm]

/-- Witness for C9 at the stop time 14:30 with the clock at 14:30 on
February 4 (window opens February 5). -/
theorem summer_transition_alarms_c9_witness :
    (setSleepAlarm cfgDailySummer nowAtStop 4).programmed =
      some ⟨0, 0, 0, 0, 5, 2⟩ ∧
    (setSleepAlarm cfgDailySummer nowAtStop 4).alarmModeSet = some 4 ∧
    (setAwakeAlarm cfgDailySummer nowAtStop 4).programmed = none ∧
    (setAwakeAlarm cfgDailySummer nowAtStop 4).alarmModeSet = none ∧
    (setAwakeAlarm cfgDailySummer nowAtStop 4).alarmFlagCleared = false :=
  summer_transition_alarms_c9 cfgDailySummer nowAtStop 4 4
    (by decide) (by decide) (by decide) (by decide) (by decide)

theorem toSigned32_usub32 (g r : Nat) (hg : g < 2 ^ 31) (hr : r < 2 ^ 31) :
    toSigned32 (usub32 g r) = (g : Int) - (r : Int) := by
  simp only [toSigned32, usub32]
  have h1 : g % 2 ^ 32 = g := Nat.mod_eq_of_lt (by omega)
  have h2 : r % 2 ^ 32 = r := Nat.mod_eq_of_lt (by omega)
  rw [h1, h2]
  rcases le_or_lt r g with h | h
  · have hm : (g + (2 ^ 32 - r)) % 2 ^ 32 = g - r := by omega
    rw [hm]
    have hm2 : (g - r) % 2 ^ 32 = g - r := Nat.mod_eq_of_lt (by omega)
    rw [hm2, if_pos (by omega : g - r < 2 ^ 31)]
    omega
  · have hm : (g + (2 ^ 32 - r)) % 2 ^ 32 = 2 ^ 32 - (r - g) := by omega
    rw [hm]
    have hm2 : (2 ^ 32 - (r - g)) % 2 ^ 32 = 2 ^ 32 - (r - g) :=
      Nat.mod_eq_of_lt (by omega)
    rw [hm2, if_neg (by omega : ¬ 2 ^ 32 - (r - g) < 2 ^ 31)]
    omega

theorem foldl_syncStep_synced (s : SyncRtcState) (hs : s.rtcSyncFlag = true)
    (fixes : List PvtFix) : fixes.foldl syncStep s = s := by
  induction fixes with
  | nil => rfl
  | cons f rest ih =>
    rw [List.foldl_cons]
    have hstep : syncStep s f = s := by
      simp only [syncStep, hs, if_true]
    rw [hstep]
    exact ih

theorem foldl_syncStep_no_accept (s : SyncRtcState) (hflag : s.rtcSyncFlag = false) :
    ∀ fixes : List PvtFix, (∀ f ∈ fixes, fixAcceptable f = false) →
      fixes.foldl syncStep s = s := by
  intro fixes
  induction fixes with
  | nil => intro h; rfl
  | cons f rest ih =>
    intro h
    rw [List.foldl_cons]
    have hstep : syncStep s f = s := by
      simp only [syncStep, hflag, h f (List.mem_cons_self f rest)]
      simp
    rw [hstep]
    exact ih fun x hx => h x (List.mem_cons_of_mem _ hx)

/-- **C6** (confirmed).  When the first polled fix is acceptable
(`fixType == 3`, both validity flags set, realistic 32-bit epochs): if the
drift `gnssEpoch - rtcEpoch` exceeds 30 s in magnitude, the session file
name is regenerated exactly once, from the clock as corrected to the fix
epoch, before `syncRtc` returns (and hence before `logGnss` opens the
file); if the magnitude is at most 30 s the name is left untouched.  In
both cases the clock is set to the fix epoch and the sync is flagged
successful, and any further fixes in the window are ignored. -/
theorem syncRtc_filename_regen_c6 (s0 : SyncRtcState) (f : PvtFix)
    (rest : List PvtFix) (hr : s0.rtcEpoch < 2 ^ 31) (hg : f.gnssEpoch < 2 ^ 31)
    (hacc : fixAcceptable f = true) :
    (30 < ((f.gnssEpoch : Int) - (s0.rtcEpoch : Int)).natAbs →
      (syncRtc s0 (f :: rest)).logFileName = logNameFromEpoch f.gnssEpoch ∧
      (syncRtc s0 (f :: rest)).regenCount = s0.regenCount + 1 ∧
      (syncRtc s0 (f :: rest)).rtcEpoch = f.gnssEpoch ∧
      (syncRtc s0 (f :: rest)).rtcSyncFlag = true) ∧
    (((f.gnssEpoch : Int) - (s0.rtcEpoch : Int)).natAbs ≤ 30 →
      (syncRtc s0 (f :: rest)).logFileName = s0.logFileName ∧
      (syncRtc s0 (f :: rest)).regenCount = s0.regenCount ∧
      (syncRtc s0 (f :: rest)).rtcEpoch = f.gnssEpoch ∧
      (syncRtc s0 (f :: rest)).rtcSyncFlag = true) := by
  have hd : toSigned32 (usub32 f.gnssEpoch s0.rtcEpoch) =
      (f.gnssEpoch : Int) - (s0.rtcEpoch : Int) :=
    toSigned32_usub32 f.gnssEpoch s0.rtcEpoch hg hr
  unfold syncRtc
  rw [List.foldl_cons]
  constructor
  · intro h30
    have hstep : syncStep { s0 with rtcSyncFlag := false } f =
        { rtcEpoch := f.gnssEpoch, logFileName := logNameFromEpoch f.gnssEpoch,
          rtcSyncFlag := true,
          rtcDrift := (f.gnssEpoch : Int) - (s0.rtcEpoch : Int),
          regenCount := s0.regenCount + 1 } := by
      simp only [syncStep, hacc, hd]
      simp [h30]
    rw [hstep, foldl_syncStep_synced _ rfl rest]
    exact ⟨rfl, rfl, rfl, rfl⟩
  · intro h30
    have hstep : syncStep { s0 with rtcSyncFlag := false } f =
        { rtcEpoch := f.gnssEpoch, logFileName := s0.logFileName,
          rtcSyncFlag := true,
          rtcDrift := (f.gnssEpoch : Int) - (s0.rtcEpoch : Int),
          regenCount := s0.regenCount } := by
      simp only [syncStep, hacc, hd]
      simp [Nat.not_lt.mpr h30]
    rw [hstep, foldl_syncStep_synced _ rfl rest]
    exact ⟨rfl, rfl, rfl, rfl⟩

/-- Witness for C6: local epoch 1700000000, accepted fix 100 s ahead —
the name is regenerated once, from the corrected clock. -/
theorem syncRtc_filename_regen_c6_witness :
    (syncRtc s0SyncEx [fixGood]).logFileName = logNameFromEpoch 1700000100 ∧
    (syncRtc s0SyncEx [fixGood]).regenCount = 0 + 1 ∧
    (syncRtc s0SyncEx [fixGood]).rtcEpoch = 1700000100 ∧
    (syncRtc s0SyncEx [fixGood]).rtcSyncFlag = true :=
  (syncRtc_filename_regen_c6 s0SyncEx fixGood []
    (by decide) (by decide) (by decide)).1 (by decide)

/-- **C7** (confirmed).  If the acquisition window closes with no polled
fix passing the acceptance test (highest fix quality with both validity
flags), the clock epoch, the session file name and the regeneration count
are all unchanged and `rtcSyncFlag` ends false — the failure report.
Moreover the daily gate in `loop()` only invokes `syncRtc` when the
stored day differs from the current day and then stores the current day,
so after any wake cycle the gate is closed for the rest of that calendar
day and a sync is attempted again only at the next day rollover. -/
theorem syncRtc_timeout_c7 (s0 : SyncRtcState) (fixes : List PvtFix)
    (h : ∀ f ∈ fixes, fixAcceptable f = false) :
    (syncRtc s0 fixes).rtcEpoch = s0.rtcEpoch ∧
    (syncRtc s0 fixes).logFileName = s0.logFileName ∧
    (syncRtc s0 fixes).regenCount = s0.regenCount ∧
    (syncRtc s0 fixes).rtcSyncFlag = false ∧
    (∀ d : Nat, wakeCycleSyncGate d d = (false, d)) ∧
    (∀ dPrev dNew : Nat, (wakeCycleSyncGate dPrev dNew).2 = dNew) := by
  unfold syncRtc
  rw [foldl_syncStep_no_accept { s0 with rtcSyncFlag := false } rfl fixes h]
  refine ⟨rfl, rfl, rfl, rfl, fun d => by simp [wakeCycleSyncGate], ?_⟩
  intro dPrev dNew
  unfold wakeCycleSyncGate
  split
  · rfl
  · simp_all

/-- Witness for C7: a single polled fix of quality 2 is not accepted;
state is unchanged and the failure is reported. -/
theorem syncRtc_timeout_c7_witness :
    (syncRtc s0SyncEx [fixBad]).rtcEpoch = 1700000000 ∧
    (syncRtc s0SyncEx [fixBad]).logFileName = (⟨23, 1, 1, 1, 1, 1⟩ : LogName) ∧
    (syncRtc s0SyncEx [fixBad]).regenCount = 0 ∧
    (syncRtc s0SyncEx [fixBad]).rtcSyncFlag = false ∧
    (∀ d : Nat, wakeCycleSyncGate d d = (false, d)) ∧
    (∀ dPrev dNew : Nat, (wakeCycleSyncGate dPrev dNew).2 = dNew) :=
  syncRtc_timeout_c7 s0SyncEx [fixBad]
    (fun f hf => by rw [List.mem_singleton] at hf; subst hf; decide)

end Gvt
